import Mathlib

set_option autoImplicit false

/-!
Verification of the WebSocket channel core of the Zato repository.

The definitions below are a shallow embedding of
`src/code/zato-server/src/zato/server/connection/web_socket/__init__.py`
and `src/code/zato-common/src/zato/common/json_.py`.  Wall-clock instants
and durations are modelled as integers (seconds); Python `datetime`
arithmetic on whole seconds is exact, so nothing is lost.  Python
dictionaries are modelled as association lists whose assignment conses a
shadowing entry at the front, matching lookup-by-first-match semantics.
-/

namespace Zato

/-- `code_invalid_utf8 = 4001` from the source module. -/
def code_invalid_utf8 : Nat := 4001

/-- `code_pings_missed = 4002` from the source module. -/
def code_pings_missed : Nat := 4002

/-- `http.client.UNPROCESSABLE_ENTITY`, used by the invalid-UTF-8 branch. -/
def UNPROCESSABLE_ENTITY : Nat := 422

/-- `close_code.runtime_invoke_client = 3701` from the source module. -/
def runtime_invoke_client : Nat := 3701

-- ################################################################################################
-- TokenInfo (class TokenInfo, web_socket/__init__.py lines 165-174)
-- ################################################################################################

/-- Embeds `class TokenInfo`: `value`, `ttl`, `creation_time`, `expires_at`. -/
structure TokenInfo where
  value : String
  ttl : Int
  creation_time : Int
  expires_at : Int
  deriving DecidableEq, Repr

/-- `TokenInfo.extend(self, extend_by=None)`:
`self.expires_at = self.expires_at + timedelta(seconds=extend_by or self.ttl)`.
Python `or` falls through to `self.ttl` when `extend_by` is `None` or `0`. -/
def TokenInfo.extend (t : TokenInfo) (extend_by : Option Int) : TokenInfo :=
  let amount : Int :=
    match extend_by with
    | some e => if e = 0 then t.ttl else e
    | none => t.ttl
  { t with expires_at := t.expires_at + amount }

/-- `TokenInfo.__init__(self, value, ttl)`: stores `value` and `ttl`, sets
`creation_time = now`, `expires_at = creation_time`, then calls `self.extend()`. -/
def TokenInfo.create (value : String) (ttl : Int) (now : Int) : TokenInfo :=
  TokenInfo.extend { value := value, ttl := ttl, creation_time := now, expires_at := now } none

/-- The `WebSocket.token` property setter (lines 395-402): when no token is
held yet it builds `TokenInfo(value, self.config.token_ttl)`; otherwise it
overwrites `value` and calls `self._token.extend()`. -/
def setToken (cur : Option TokenInfo) (value : String) (token_ttl : Int) (now : Int) : TokenInfo :=
  match cur with
  | none => TokenInfo.create value token_ttl now
  | some t => TokenInfo.extend { t with value := value } none

-- ################################################################################################
-- Background pinger (send_background_pings lines 744-834, on_pings_missed lines 852-859)
-- ################################################################################################

/-- The part of the pinger state that one loop iteration reads and writes. -/
structure PingerState where
  pings_missed : Nat
  pings_missed_threshold : Nat
  server_terminated : Bool
  client_terminated : Bool
  deriving DecidableEq, Repr

/-- What one iteration of the `send_background_pings` loop does after its
ping exchange: keep looping, or close the connection with a code and reason
and return from the loop. -/
inductive PingerAction where
  | continue_loop
  | close_and_exit (code : Nat) (reason : String)
  deriving DecidableEq, Repr

/-- The pong branch of the loop body (lines 776-793): on a response,
`pings_missed` is reset to 0 and the token is extended; the loop continues. -/
def pinger_on_pong (s : PingerState) : PingerState × PingerAction :=
  ({ s with pings_missed := 0 }, PingerAction.continue_loop)

/-- The missed-pong branch of the loop body (lines 795-815): increment
`pings_missed`; if it is still strictly below `pings_missed_threshold`, log a
warning and continue; otherwise call `on_pings_missed`, which runs
`disconnect_client(new_cid(), code_pings_missed, 'Pings missed')` and
`update_terminated_status()`, and `return` exits the loop. -/
def pinger_on_miss (s : PingerState) : PingerState × PingerAction :=
  let missed := s.pings_missed + 1
  if missed < s.pings_missed_threshold then
    ({ s with pings_missed := missed }, PingerAction.continue_loop)
  else
    ({ s with
        pings_missed := missed
        server_terminated := true
        client_terminated := true },
      PingerAction.close_and_exit code_pings_missed "Pings missed")

-- ################################################################################################
-- Inbound dispatch gate after session open (_received_message lines 1106-1131)
-- ################################################################################################

/-- What `_received_message` does with a parsed request once
`has_session_opened` is true. -/
inductive InboundOutcome where
  | forbidden (reason : String)
  | dispatch_client_message
  | dispatch_create_session
  deriving DecidableEq, Repr

/-- The token gate of `_received_message` for an authenticated connection
(lines 1106-1131): reject when `not request.token` (absent or empty string),
when the token differs from `self.token.value`, or when the current time is
past `self.token.expires_at`; otherwise dispatch to
`handle_create_session` when `request.is_auth` else `handle_client_message`. -/
def received_after_session_open (token_value : String) (expires_at : Int)
    (request_token : Option String) (is_auth : Bool) (now : Int) : InboundOutcome :=
  match request_token with
  | none => InboundOutcome.forbidden "did not send token"
  | some tok =>
    if tok = "" then
      InboundOutcome.forbidden "did not send token"
    else if tok ≠ token_value then
      InboundOutcome.forbidden "sent an invalid token"
    else if now > expires_at then
      InboundOutcome.forbidden "used an expired token"
    else if is_auth then
      InboundOutcome.dispatch_create_session
    else
      InboundOutcome.dispatch_client_message

-- ################################################################################################
-- Request correlator (_wait_for_event lines 1017-1029, _handle_client_response lines 1033-1059)
-- ################################################################################################

/-- A value stored in `responses_received`: `_handle_client_response` stores
the parsed client message (modelled by its payload), `ponged` stores `True`. -/
inductive ClientResp where
  | msg (data : String)
  | pong_marker
  deriving DecidableEq, Repr

/-- `responses_received`, a Python dict keyed by correlation id. -/
abbrev RespMap := List (String × ClientResp)

/-- Python `dict.get(key)`. -/
def respLookup : RespMap → String → Option ClientResp
  | [], _ => none
  | (k, v) :: rest, id => if k = id then some v else respLookup rest id

/-- Python `responses_received[key] = value`: assignment shadows any previous
binding for the key. -/
def respStore (m : RespMap) (key : String) (v : ClientResp) : RespMap :=
  (key, v) :: m

/-- Stores a batch of entries written by other tasks (`_handle_client_response`
at line 1051, `ponged` at line 1361) between two polls of the waiter. -/
def respStoreAll (m : RespMap) (entries : List (String × ClientResp)) : RespMap :=
  entries.foldl (fun acc e => respStore acc e.1 e.2) m

/-- `_has_client_response(self, request_id)`:
`return self.responses_received.get(request_id)` - a pure read. -/
def has_client_response (m : RespMap) (request_id : String) : Option ClientResp :=
  respLookup m request_id

/-- The polling loop of `_wait_for_event` applied to `_has_client_response`,
as called by `_wait_for_client_response`.  `fuel` is the number of 10 ms polls
that fit in `wait_time`; `arrivals tick` are the entries that the reader task
stores into `responses_received` before poll number `tick`.  Each poll
evaluates the condition on the current map; a truthy value ends the wait and
is returned, and once the deadline passes the function returns `None`.  The
map is returned alongside so that theorems can speak about the entries the
waiter leaves behind. -/
def wait_for_client_response_aux (arrivals : Nat → List (String × ClientResp)) :
    Nat → Nat → RespMap → String → Option ClientResp × RespMap
  | 0, _, m, _ => (none, m)
  | fuel + 1, tick, m, request_id =>
    let m1 := respStoreAll m (arrivals tick)
    match has_client_response m1 request_id with
    | some r => (some r, m1)
    | none => wait_for_client_response_aux arrivals fuel (tick + 1) m1 request_id

/-- `_wait_for_client_response(self, request_id, wait_time=5)` with the
polling budget made explicit. -/
def wait_for_client_response (arrivals : Nat → List (String × ClientResp))
    (polls : Nat) (m : RespMap) (request_id : String) : Option ClientResp × RespMap :=
  wait_for_client_response_aux arrivals polls 0 m request_id

-- ################################################################################################
-- Invalid UTF-8 policy (_received_message lines 1063-1093)
-- ################################################################################################

/-- The names bound as methods or properties of `class WebSocket` in
`web_socket/__init__.py`, transcribed from the source file, together with the
attributes the module uses from the external ws4py base class
(`send`, `ping`, `close`, `closed`, `opened`, `ponged`, `received_message`,
`unhandled_error`, `run`, `terminate` are defined or overridden here;
`_write`, `close_connection`, `process`, `once` come from ws4py).
`_send_response_to_client`, called at line 1086, appears nowhere in this
class, in this module, or in the ws4py base class. -/
def webSocketMethodNames : List String :=
  ["_set_json_dump_func", "_init", "token", "sql_ws_client_id",
   "set_last_interaction_data", "deliver_pubsub_msg", "add_sub_key",
   "remove_sub_key", "add_pubsub_message", "get_peer_info_dict",
   "get_peer_info_pretty", "get_on_connected_hook", "get_on_disconnected_hook",
   "get_on_pubsub_hook", "get_on_vault_mount_point_needed", "parse_json",
   "parse_xml", "create_session", "on_forbidden", "update_terminated_status",
   "is_client_disconnected", "is_client_connected", "send_background_pings",
   "_get_hook_request", "on_pings_missed", "register_auth_client",
   "unregister_auth_client", "handle_create_session", "invoke_service",
   "handle_client_message", "_handle_invoke_service", "_wait_for_event",
   "_handle_client_response", "_has_client_response",
   "_wait_for_client_response", "_received_message", "received_message",
   "send", "_store_audit_log_data", "notify_pubsub_message",
   "subscribe_to_topic", "run", "_ensure_session_created", "_shorten_data",
   "invoke_client", "_close_connection", "disconnect_client", "opened",
   "closed", "on_socket_terminated", "ponged", "unhandled_error", "close",
   "ping", "_write", "close_connection", "process", "once", "terminate"]

/-- The server-message shape `ErrorResponse(cid, in_reply_to, status, reason)`
as constructed at line 1082 of the source. -/
structure ErrorResponseMsg where
  cid : String
  in_reply_to : String
  status : Nat
  reason : String
  deriving DecidableEq, Repr

/-- The response object built in the invalid-UTF-8 branch:
`ErrorResponse('<no-cid>', '<no-msg-id>', UNPROCESSABLE_ENTITY, reason)` with
`reason = 'Invalid UTF-8 bytes'`. -/
def invalid_utf8_error_response : ErrorResponseMsg :=
  { cid := "<no-cid>", in_reply_to := "<no-msg-id>",
    status := UNPROCESSABLE_ENTITY, reason := "Invalid UTF-8 bytes" }

/-- The observable result of `_received_message` on a frame whose bytes fail
`data.decode('utf8')`. -/
inductive Utf8Outcome where
  | error_message_sent (status : Nat) (reason : String)
  | disconnected (code : Nat) (reason : String)
  | attribute_error_logged
  deriving DecidableEq, Repr

/-- The invalid-UTF-8 branch of `_received_message` (lines 1074-1093).  After
session open the source builds `invalid_utf8_error_response` and evaluates
`self._send_response_to_client(response)`; attribute lookup on `self` only
succeeds for names the class (or its base) defines, so the call raises
`AttributeError`, which the enclosing `except Exception` handler at line 1153
catches and logs, leaving the connection open.  Before session open the
source calls `disconnect_client('<no-cid>', code_invalid_utf8, reason)`. -/
def received_invalid_utf8 (has_session_opened : Bool) : Utf8Outcome :=
  if has_session_opened then
    if webSocketMethodNames.contains "_send_response_to_client" then
      Utf8Outcome.error_message_sent invalid_utf8_error_response.status invalid_utf8_error_response.reason
    else
      Utf8Outcome.attribute_error_logged
  else
    Utf8Outcome.disconnected code_invalid_utf8 "Invalid UTF-8 bytes"

/-- Whether the connection is still open after the invalid-UTF-8 handling:
only the pre-session-open branch disconnects. -/
def utf8_outcome_connection_open : Utf8Outcome → Bool
  | Utf8Outcome.disconnected _ _ => false
  | _ => true

-- ################################################################################################
-- Pub/sub delivery ctx (deliver_pubsub_msg lines 474-509)
-- ################################################################################################

/-- The fields of `PubSubMessage` that `deliver_pubsub_msg` reads. -/
structure PubSubMsg where
  pub_msg_id : String
  serialized : Option String
  external_dict : String
  reply_to_sk : Option String
  deriving DecidableEq, Repr

/-- A value held in the `ctx` dictionary: the single-message branch stores a
plain string, the batch branch accumulates a list. -/
inductive CtxVal where
  | str (v : String)
  | list (vs : List String)
  deriving DecidableEq, Repr

/-- The `ctx` dictionary passed to the outgoing request. -/
abbrev Ctx := List (String × CtxVal)

/-- Python `dict.get(key)` on a `ctx` dictionary. -/
def ctxLookup : Ctx → String → Option CtxVal
  | [], _ => none
  | (k, v) :: rest, key => if k = key then some v else ctxLookup rest key

/-- `ctx.setdefault(key, []).append(sk)`: append to the list already bound to
the key, or bind the key to the fresh one-element list.  The source only ever
uses this with list values, so a string hit is left unchanged. -/
def ctxSetdefaultAppend : Ctx → String → String → Ctx
  | [], key, sk => [(key, CtxVal.list [sk])]
  | (k, v) :: rest, key, sk =>
    if k = key then
      match v with
      | CtxVal.list vs => (k, CtxVal.list (vs ++ [sk])) :: rest
      | CtxVal.str s => (k, CtxVal.str s) :: rest
    else
      (k, v) :: ctxSetdefaultAppend rest key sk

/-- `elem.serialized if elem.serialized else elem.to_external_dict()`. -/
def serializeMsg (m : PubSubMsg) : String :=
  match m.serialized with
  | some s => s
  | none => m.external_dict

/-- The loop of the batch branch (lines 489-493): for each element, append its
serialized form to `data`, and when `elem.reply_to_sk` is set run
`ctx_reply_to_sk = ctx.setdefault('', []); ctx_reply_to_sk.append(elem.reply_to_sk)`.
Note the literal key is the empty string. -/
def deliver_batch_ctx : List PubSubMsg → Ctx → Ctx
  | [], ctx => ctx
  | m :: rest, ctx =>
    let ctx1 :=
      match m.reply_to_sk with
      | some sk => ctxSetdefaultAppend ctx "" sk
      | none => ctx
    deliver_batch_ctx rest ctx1

/-- The single-message branch (lines 496-500): when `msg.reply_to_sk` is set,
`ctx['reply_to_sk'] = msg.reply_to_sk`. -/
def deliver_single_ctx (m : PubSubMsg) : Ctx :=
  match m.reply_to_sk with
  | some sk => [("reply_to_sk", CtxVal.str sk)]
  | none => []

/-- Input to `deliver_pubsub_msg`: a bare `PubSubMessage` or a list of them. -/
inductive DeliverInput where
  | single (m : PubSubMsg)
  | batch (ms : List PubSubMsg)
  deriving DecidableEq, Repr

/-- `WebSocket.deliver_pubsub_msg` (lines 474-509), restricted to the `ctx`
dictionary and serialized `data` it hands to
`invoke_client(cid, data, ctx=ctx, _Class=InvokeClientPubSubRequest)`.
A one-element list is unwrapped first (`msg = msg[0] if len_msg == 1 else msg`),
so only lists of length other than one reach the batch branch. -/
def deliver_pubsub_msg (input : DeliverInput) : Ctx × List String :=
  match input with
  | DeliverInput.single m => (deliver_single_ctx m, [serializeMsg m])
  | DeliverInput.batch ms =>
    match ms with
    | [m] => (deliver_single_ctx m, [serializeMsg m])
    | _ => (deliver_batch_ctx ms [], ms.map serializeMsg)

/-- Modelled from the spec: `InvokeClientPubSubRequest` is defined in
`zato/server/connection/web_socket/msg.py`, which is not under `src/`.
Per sections 4.8 and 6 of the spec, the outgoing envelope carries the `ctx`
dictionary given to the request verbatim as `meta.ctx`. -/
def invokeClientPubSubMetaCtx (ctx : Ctx) : Ctx := ctx

-- ################################################################################################
-- Disconnect and close (lines 1309-1328, 1341-1347, 1387-1410; cleanup_wsx_client is external)
-- ################################################################################################

/-- The per-connection and container state read and written by
`disconnect_client`, `_close_connection` and `close`, with effect counters for
the host-visible actions so that repetition is observable. -/
structure DisconnectState where
  disconnect_requested : Bool
  server_terminated : Bool
  has_session_opened : Bool
  is_audit_active : Bool
  pub_client_id : String
  clients : List String
  client_delete_invocations : Nat
  audit_delete_invocations : Nat
  close_frames_sent : Nat
  deriving DecidableEq, Repr

/-- Modelled from the spec: `cleanup_wsx_client` is imported from
`zato.common.util.wsx`, which is not under `src/`.  Per the section-3
lifecycle of the spec it calls `client.delete` in the host and releases the
connection's subscriptions; it receives `has_session_opened` as its first
argument and does the host-side cleanup when a session had been opened. -/
def cleanup_wsx_client (has_session_opened : Bool) (s : DisconnectState) : DisconnectState :=
  if has_session_opened then
    { s with client_delete_invocations := s.client_delete_invocations + 1 }
  else
    s

/-- `unregister_auth_client` (lines 895-905): forwards to `cleanup_wsx_client`
with the current `has_session_opened` flag. -/
def unregister_auth_client (s : DisconnectState) : DisconnectState :=
  cleanup_wsx_client s.has_session_opened s

/-- `_close_connection` (lines 1309-1319): always runs
`unregister_auth_client()`, then `container.clients.pop(pub_client_id, None)`,
then deletes the audit container when either audit direction is active. -/
def close_connection (s : DisconnectState) : DisconnectState :=
  let s1 := unregister_auth_client s
  let s2 := { s1 with clients := s1.clients.filter (fun c => c ≠ s1.pub_client_id) }
  if s2.is_audit_active then
    { s2 with audit_delete_invocations := s2.audit_delete_invocations + 1 }
  else
    s2

/-- `close` (lines 1387-1410): only when `server_terminated` is still false
does it set the flag and write the close frame to the stream. -/
def ws_close (s : DisconnectState) : DisconnectState :=
  if s.server_terminated then
    s
  else
    { s with server_terminated := true, close_frames_sent := s.close_frames_sent + 1 }

/-- `disconnect_client` (lines 1323-1328): set `_disconnect_requested`, run
`_close_connection`, then `close(code, reason)`. -/
def disconnect_client (s : DisconnectState) : DisconnectState :=
  ws_close (close_connection { s with disconnect_requested := true })

-- ################################################################################################
-- WebSocketContainer client operations (lines 1413-1475)
-- ################################################################################################

/-- `WebSocketContainer.clients`: `pub_client_id -> WebSocket`, with the
connection objects abstracted to opaque handles. -/
structure WSXContainer where
  clients : List (String × Nat)
  deriving DecidableEq, Repr

/-- `self.clients[pub_client_id]` - Python subscripting on a dict. -/
def containerGetRaw : List (String × Nat) → String → Option Nat
  | [], _ => none
  | (k, v) :: rest, key => if k = key then some v else containerGetRaw rest key

/-- Python `KeyError` raised by subscripting a dict with a missing key. -/
inductive ContainerError where
  | keyError (key : String)
  deriving DecidableEq, Repr

/-- Which container operation ran, and on which client handle. -/
inductive ContainerOpResult where
  | invoked_client (handle : Nat)
  | disconnected_client (handle : Nat)
  | notified_pubsub (handle : Nat)
  | subscribed (handle : Nat)
  | got_client (handle : Nat)
  deriving DecidableEq, Repr

/-- `WebSocketContainer.invoke_client(cid, pub_client_id, request, timeout)`:
`return self.clients[pub_client_id].invoke_client(cid, request, timeout)`. -/
def container_invoke_client (c : WSXContainer) (pub_client_id : String) :
    Except ContainerError ContainerOpResult :=
  match containerGetRaw c.clients pub_client_id with
  | some w => Except.ok (ContainerOpResult.invoked_client w)
  | none => Except.error (ContainerError.keyError pub_client_id)

/-- `WebSocketContainer.disconnect_client(cid, pub_client_id)`:
`return self.clients[pub_client_id].disconnect_client(cid)`. -/
def container_disconnect_client (c : WSXContainer) (pub_client_id : String) :
    Except ContainerError ContainerOpResult :=
  match containerGetRaw c.clients pub_client_id with
  | some w => Except.ok (ContainerOpResult.disconnected_client w)
  | none => Except.error (ContainerError.keyError pub_client_id)

/-- `WebSocketContainer.notify_pubsub_message(cid, pub_client_id, request)`:
`return self.clients[pub_client_id].notify_pubsub_message(cid, request)`. -/
def container_notify_pubsub_message (c : WSXContainer) (pub_client_id : String) :
    Except ContainerError ContainerOpResult :=
  match containerGetRaw c.clients pub_client_id with
  | some w => Except.ok (ContainerOpResult.notified_pubsub w)
  | none => Except.error (ContainerError.keyError pub_client_id)

/-- `WebSocketContainer.subscribe_to_topic(cid, pub_client_id, request)`:
`return self.clients[pub_client_id].subscribe_to_topic(cid, request)`. -/
def container_subscribe_to_topic (c : WSXContainer) (pub_client_id : String) :
    Except ContainerError ContainerOpResult :=
  match containerGetRaw c.clients pub_client_id with
  | some w => Except.ok (ContainerOpResult.subscribed w)
  | none => Except.error (ContainerError.keyError pub_client_id)

/-- `WebSocketContainer.get_client_by_pub_id(pub_client_id)`:
`return self.clients[pub_client_id]`. -/
def container_get_client_by_pub_id (c : WSXContainer) (pub_client_id : String) :
    Except ContainerError ContainerOpResult :=
  match containerGetRaw c.clients pub_client_id with
  | some w => Except.ok (ContainerOpResult.got_client w)
  | none => Except.error (ContainerError.keyError pub_client_id)

-- ################################################################################################
-- zato.common.json_: _ensure_serializable and dumps (json_.py lines 37-73)
-- ################################################################################################

/-- Python values as seen by `json_.dumps`.  `datetime` carries the string its
`isoformat()` returns, `bytes` carries the text its UTF-8 decoding yields (the
claims only concern byte strings that decode successfully), `objectId` carries
the id's string form, `float` and `other` carry opaque tags. -/
inductive PyValue where
  | none_v
  | str (s : String)
  | int (n : Int)
  | float (tag : Nat)
  | dict (entries : List (String × PyValue))
  | list (xs : List PyValue)
  | tuple (xs : List PyValue)
  | set (xs : List PyValue)
  | datetime (iso : String)
  | bytes (decoded : String)
  | objectId (oid : String)
  | other (tag : Nat)

/-- Python exceptions that `dumps` can raise before serialization proper. -/
inductive PyError where
  | typeError
  | nameError (name : String)
  deriving DecidableEq, Repr

/-- `isinstance(value, simple_type)` with
`simple_type = (str, dict, int, float, list, tuple, set)`. -/
def isSimpleType : PyValue → Bool
  | PyValue.str _ => true
  | PyValue.dict _ => true
  | PyValue.int _ => true
  | PyValue.float _ => true
  | PyValue.list _ => true
  | PyValue.tuple _ => true
  | PyValue.set _ => true
  | _ => false

/-- `_ensure_serializable(value)` (json_.py lines 37-59): `None` and the
simple types pass through; `datetime` becomes its ISO-8601 string, `bytes` is
UTF-8 decoded, `ObjectId` becomes `'ObjectId(...)'`; anything else raises
`TypeError`. -/
def ensure_serializable (v : PyValue) : Except PyError PyValue :=
  match v with
  | PyValue.none_v => Except.ok PyValue.none_v
  | v =>
    if isSimpleType v then
      Except.ok v
    else
      match v with
      | PyValue.datetime iso => Except.ok (PyValue.str iso)
      | PyValue.bytes decoded => Except.ok (PyValue.str decoded)
      | PyValue.objectId oid =>
        Except.ok (PyValue.str ("ObjectId(" ++ oid ++ ")"))
      | _ => Except.error PyError.typeError

/-- The preprocessing that `dumps(data, indent=4)` (json_.py lines 63-73)
applies to `data` before handing it to `ujson.dumps`: when `data` is a dict,
each top-level value is replaced by `_ensure_serializable(value)`; when `data`
is neither `None` nor a dict, the source executes
`data = _ensure_serializable(value)`, where the local name `value` is bound
nowhere on that path, so evaluating it raises `NameError`.
`ensure_entries` is the dict loop
`for key, value in data.items(): data[key] = _ensure_serializable(value)`,
with an exception from `_ensure_serializable` propagating. -/
def ensure_entries : List (String × PyValue) → Except PyError (List (String × PyValue))
  | [] => Except.ok []
  | (k, v) :: rest =>
    match ensure_serializable v with
    | Except.ok v1 =>
      match ensure_entries rest with
      | Except.ok rest1 => Except.ok ((k, v1) :: rest1)
      | Except.error e => Except.error e
    | Except.error e => Except.error e

/-- `dumps(data, indent=4)` (json_.py lines 63-73), restricted to the value it
passes on to `ujson.dumps`: `None` passes through, a dict has its top-level
values run through `_ensure_serializable`, and anything else hits the broken
else branch and raises `NameError` (see `ensure_entries`). -/
def dumps_preprocess (data : PyValue) : Except PyError PyValue :=
  match data with
  | PyValue.none_v => Except.ok PyValue.none_v
  | PyValue.dict entries =>
    match ensure_entries entries with
    | Except.ok entries1 => Except.ok (PyValue.dict entries1)
    | Except.error e => Except.error e
  | _ => Except.error (PyError.nameError "value")

-- ################################################################################################
-- create_session and handle_create_session (lines 647-701, 909-921)
-- ################################################################################################

/-- The per-connection session fields that `create_session` may write. -/
structure SessionFields where
  token : Option TokenInfo
  has_session_opened : Bool
  ext_client_id : Option String
  ext_client_name : Option String
  ext_token : Option String
  deriving DecidableEq, Repr

/-- The parts of the parsed `create-session` request that `create_session`
and `handle_create_session` read. -/
structure CreateSessionRequest where
  cid : String
  id : String
  username : Option String
  secret : String
  ext_client_id : Option String
  ext_client_name : Option String
  is_auth : Bool
  deriving DecidableEq, Repr

/-- Configuration consulted by `create_session`: `needs_auth` and whether the
channel's security definition is Vault-based. -/
structure ChannelAuthConfig where
  needs_auth : Bool
  sec_type_is_vault : Bool
  token_ttl : Int
  deriving DecidableEq, Repr

/-- Modelled from the spec: `AuthenticateResponse` is defined in
`zato/server/connection/web_socket/msg.py`, which is not under `src/`.  Per
section 6 of the spec it carries the token value, the server correlation id
and the client id it replies to. -/
structure AuthenticateResponseMsg where
  token : String
  cid : String
  in_reply_to : String
  deriving DecidableEq, Repr

/-- `WebSocket.create_session` (lines 647-701).  `auth_ok` is the value
`self.config.auth_func(...)` returns (consulted only when `needs_auth`);
`vault_token` is the Vault response-header token and `fresh_cid` the value
`new_cid()` would produce; `now` is the current UTC time.  On success the
token setter runs (`setToken`), the session fields are written, and an
`AuthenticateResponse` is returned; otherwise the function falls through and
returns `None`, touching nothing. -/
def create_session (cfg : ChannelAuthConfig) (st : SessionFields)
    (req : CreateSessionRequest) (auth_ok : Bool) (vault_token : String)
    (fresh_cid : String) (now : Int) :
    Option AuthenticateResponseMsg × SessionFields :=
  let can_create_session := if cfg.needs_auth then auth_ok else true
  if can_create_session then
    let self_token := if cfg.sec_type_is_vault then vault_token else fresh_cid
    let ext_token := if cfg.sec_type_is_vault then some vault_token else st.ext_token
    let new_token := setToken st.token ("ws.token." ++ self_token) cfg.token_ttl now
    let st1 :=
      { st with
          token := some new_token
          ext_token := ext_token
          has_session_opened := true
          ext_client_id := req.ext_client_id
          ext_client_name := req.ext_client_name }
    (some { token := new_token.value, cid := req.cid, in_reply_to := req.id }, st1)
  else
    (none, st)

/-- The outcome of `handle_create_session` (lines 909-921). -/
inductive CreateSessionOutcome where
  | authenticated (resp : AuthenticateResponseMsg)
  | forbidden (reason : String)
  deriving DecidableEq, Repr

/-- `WebSocket.handle_create_session`: a non-auth message is refused outright;
otherwise `create_session` decides, and a `None` response is turned into
`on_forbidden('sent invalid credentials')`. -/
def handle_create_session (cfg : ChannelAuthConfig) (st : SessionFields)
    (req : CreateSessionRequest) (auth_ok : Bool) (vault_token : String)
    (fresh_cid : String) (now : Int) : CreateSessionOutcome × SessionFields :=
  if req.is_auth then
    match create_session cfg st req auth_ok vault_token fresh_cid now with
    | (some resp, st1) => (CreateSessionOutcome.authenticated resp, st1)
    | (none, st1) => (CreateSessionOutcome.forbidden "sent invalid credentials", st1)
  else
    (CreateSessionOutcome.forbidden "is not authenticated", st)

-- ################################################################################################
-- Concrete inputs used by witnesses and counterexamples
-- ################################################################################################

/-- An arrival schedule where the reader task stores a response for `id1`
before the first poll. -/
def arrivals_example : Nat → List (String × ClientResp) :=
  fun tick => if tick = 0 then [("id1", ClientResp.msg "payload")] else []

/-- An arrival schedule where no response ever arrives. -/
def arrivals_empty : Nat → List (String × ClientResp) :=
  fun _ => []

/-- A pinger that has missed no pings yet, with threshold 1. -/
def pinger_example_state : PingerState :=
  { pings_missed := 0, pings_missed_threshold := 1,
    server_terminated := false, client_terminated := false }

/-- A token created with ttl 5 at time 0. -/
def token_example : TokenInfo := TokenInfo.create "v" 5 0

/-- A sequence of extensions: an explicit 3-second one, a ping-driven default
one, and an explicit zero. -/
def extend_ops_example : List (Option Int) := [some 3, none, some 0]

/-- Two pub/sub messages that both carry `reply_to_sk`. -/
def psmsg1 : PubSubMsg :=
  { pub_msg_id := "zpsm1", serialized := none, external_dict := "m1",
    reply_to_sk := some "sk-1" }

/-- See `psmsg1`. -/
def psmsg2 : PubSubMsg :=
  { pub_msg_id := "zpsm2", serialized := some "m2pre", external_dict := "m2",
    reply_to_sk := some "sk-2" }

/-- An authenticated, registered, audit-enabled connection before any
disconnect. -/
def disconnect_example_state : DisconnectState :=
  { disconnect_requested := false, server_terminated := false,
    has_session_opened := true, is_audit_active := true,
    pub_client_id := "ws.c1", clients := ["ws.c1"],
    client_delete_invocations := 0, audit_delete_invocations := 0,
    close_frames_sent := 0 }

/-- A container holding one client, which is not the one later looked up. -/
def container_example : WSXContainer := { clients := [("ws.other", 7)] }

/-- A channel configuration that requires authentication. -/
def auth_cfg_example : ChannelAuthConfig :=
  { needs_auth := true, sec_type_is_vault := false, token_ttl := 3600 }

/-- The session fields of a connection that has not yet authenticated. -/
def fresh_session_example : SessionFields :=
  { token := none, has_session_opened := false, ext_client_id := none,
    ext_client_name := none, ext_token := none }

/-- A `create-session` request carrying wrong credentials. -/
def bad_creds_request_example : CreateSessionRequest :=
  { cid := "cid1", id := "c1", username := some "u", secret := "wrong",
    ext_client_id := some "ext1", ext_client_name := some "name1",
    is_auth := true }

-- ################################################################################################
-- Helper lemmas
-- ################################################################################################

theorem respLookup_store_self (m : RespMap) (k : String) (v : ClientResp) :
    respLookup (respStore m k v) k = some v := by
  simp [respStore, respLookup]

theorem respLookup_store_other (m : RespMap) (k id : String) (v : ClientResp)
    (h : k ≠ id) : respLookup (respStore m k v) id = respLookup m id := by
  simp [respStore, respLookup, h]

theorem respLookup_storeAll_not_mem (entries : List (String × ClientResp))
    (m : RespMap) (id : String) (h : ∀ e ∈ entries, e.1 ≠ id) :
    respLookup (respStoreAll m entries) id = respLookup m id := by
  induction entries generalizing m with
  | nil => rfl
  | cons e rest ih =>
    have step : respStoreAll m (e :: rest) = respStoreAll (respStore m e.1 e.2) rest := rfl
    rw [step, ih (respStore m e.1 e.2) (fun x hx => h x (List.mem_cons_of_mem _ hx)),
      respLookup_store_other m e.1 id e.2 (h e (List.mem_cons_self _ _))]

theorem respLookup_store_isSome (m : RespMap) (k2 k : String) (v2 : ClientResp)
    (h : (respLookup m k).isSome) : (respLookup (respStore m k2 v2) k).isSome := by
  by_cases hk : k2 = k
  · subst hk; simp [respLookup_store_self]
  · rwa [respLookup_store_other m k2 k v2 hk]

theorem respLookup_storeAll_isSome (entries : List (String × ClientResp))
    (m : RespMap) (k : String) (h : (respLookup m k).isSome) :
    (respLookup (respStoreAll m entries) k).isSome := by
  induction entries generalizing m with
  | nil => exact h
  | cons e rest ih =>
    have step : respStoreAll m (e :: rest) = respStoreAll (respStore m e.1 e.2) rest := rfl
    rw [step]
    exact ih (respStore m e.1 e.2) (respLookup_store_isSome m e.1 k e.2 h)

theorem wait_aux_timeout (arrivals : Nat → List (String × ClientResp))
    (request_id : String)
    (h_no : ∀ tick, ∀ e ∈ arrivals tick, e.1 ≠ request_id) :
    ∀ (fuel tick : Nat) (m : RespMap), respLookup m request_id = none →
      (wait_for_client_response_aux arrivals fuel tick m request_id).1 = none ∧
      respLookup (wait_for_client_response_aux arrivals fuel tick m request_id).2
        request_id = none := by
  intro fuel
  induction fuel with
  | zero => intro tick m hm; exact ⟨rfl, hm⟩
  | succ n ih =>
    intro tick m hm
    have hm1 : respLookup (respStoreAll m (arrivals tick)) request_id = none := by
      rw [respLookup_storeAll_not_mem _ _ _ (h_no tick)]; exact hm
    have hcond : has_client_response (respStoreAll m (arrivals tick)) request_id = none := hm1
    simp only [wait_for_client_response_aux, hcond]
    exact ih (tick + 1) (respStoreAll m (arrivals tick)) hm1

theorem wait_aux_preserves (arrivals : Nat → List (String × ClientResp))
    (request_id k : String) :
    ∀ (fuel tick : Nat) (m : RespMap), (respLookup m k).isSome →
      (respLookup (wait_for_client_response_aux arrivals fuel tick m request_id).2 k).isSome := by
  intro fuel
  induction fuel with
  | zero => intro tick m h; exact h
  | succ n ih =>
    intro tick m h
    have h1 : (respLookup (respStoreAll m (arrivals tick)) k).isSome :=
      respLookup_storeAll_isSome _ _ _ h
    cases hcond : has_client_response (respStoreAll m (arrivals tick)) request_id with
    | some r => simp only [wait_for_client_response_aux, hcond]; exact h1
    | none =>
      simp only [wait_for_client_response_aux, hcond]
      exact ih (tick + 1) (respStoreAll m (arrivals tick)) h1

theorem wait_aux_consumed (arrivals : Nat → List (String × ClientResp))
    (request_id : String) :
    ∀ (fuel tick : Nat) (m : RespMap) (r : ClientResp),
      (wait_for_client_response_aux arrivals fuel tick m request_id).1 = some r →
      respLookup (wait_for_client_response_aux arrivals fuel tick m request_id).2
        request_id = some r := by
  intro fuel
  induction fuel with
  | zero => intro tick m r h; exact absurd h (by simp [wait_for_client_response_aux])
  | succ n ih =>
    intro tick m r h
    cases hcond : has_client_response (respStoreAll m (arrivals tick)) request_id with
    | some r2 =>
      simp only [wait_for_client_response_aux, hcond] at h ⊢
      rw [← h]
      exact hcond
    | none =>
      simp only [wait_for_client_response_aux, hcond] at h ⊢
      exact ih (tick + 1) (respStoreAll m (arrivals tick)) r h

theorem TokenInfo.extend_ttl (t : TokenInfo) (e : Option Int) :
    (TokenInfo.extend t e).ttl = t.ttl := by
  cases e <;> rfl

theorem TokenInfo.extend_expires_ge (t : TokenInfo) (e : Option Int)
    (h_ttl : 0 ≤ t.ttl) (he : 0 ≤ e.getD 0) :
    t.expires_at ≤ (TokenInfo.extend t e).expires_at := by
  cases e with
  | none => simp only [TokenInfo.extend]; omega
  | some x =>
    simp only [Option.getD] at he
    simp only [TokenInfo.extend]
    by_cases h0 : x = 0 <;> simp only [h0, if_pos, if_neg, if_true, if_false] <;> omega

theorem TokenInfo.foldl_extend_expires_ge (ops : List (Option Int)) :
    ∀ (t : TokenInfo), 0 ≤ t.ttl → (∀ o ∈ ops, 0 ≤ o.getD 0) →
      t.expires_at ≤ (ops.foldl TokenInfo.extend t).expires_at := by
  induction ops with
  | nil => intro t _ _; simp
  | cons e rest ih =>
    intro t h1 h2
    simp only [List.foldl_cons]
    refine le_trans (TokenInfo.extend_expires_ge t e h1 (h2 e (List.mem_cons_self _ _))) ?_
    exact ih (TokenInfo.extend t e)
      (by rw [TokenInfo.extend_ttl]; exact h1)
      (fun o ho => h2 o (List.mem_cons_of_mem _ ho))

-- ################################################################################################
-- Claim theorems
-- ################################################################################################

/-- C1 (counterexample): with a response for `id1` arriving before the first
poll, a 5-second wait (500 polls of 10 ms) consumes and returns the response,
yet the entry `responses_received[id1]` is still present afterwards - the
waiter never removes it, contradicting the claim that after the waiter
finishes the entry has been removed. -/
theorem C1_counterexample :
    (wait_for_client_response arrivals_example 500 [] "id1").1 =
      some (ClientResp.msg "payload")
    ∧ respLookup (wait_for_client_response arrivals_example 500 [] "id1").2 "id1" ≠
        none := by
  constructor
  · rfl
  · decide

/-- C1 (amended): the wait returns `None` once the timeout expires without a
response, and on such a timeout no entry for the id exists - but only because
the entry is created when a response arrives, never by the waiter: the waiter
removes no key, so every entry present when it starts is still present when it
finishes, and a consumed response's entry remains in `responses_received`. -/
theorem C1_waiter_cleanup (arrivals : Nat → List (String × ClientResp))
    (polls : Nat) (m : RespMap) (request_id : String) :
    ((∀ tick, ∀ e ∈ arrivals tick, e.1 ≠ request_id) →
      respLookup m request_id = none →
      (wait_for_client_response arrivals polls m request_id).1 = none ∧
      respLookup (wait_for_client_response arrivals polls m request_id).2
        request_id = none)
    ∧ (∀ k, (respLookup m k).isSome →
        (respLookup (wait_for_client_response arrivals polls m request_id).2 k).isSome)
    ∧ (∀ r, (wait_for_client_response arrivals polls m request_id).1 = some r →
        respLookup (wait_for_client_response arrivals polls m request_id).2
          request_id = some r) := by
  refine ⟨?_, ?_, ?_⟩
  · intro h_no hm
    exact wait_aux_timeout arrivals request_id h_no polls 0 m hm
  · intro k hk
    exact wait_aux_preserves arrivals request_id k polls 0 m hk
  · intro r hr
    exact wait_aux_consumed arrivals request_id polls 0 m r hr

/-- C1 (witness): instantiating the amended theorem where the response for
`id1` arrives: its entry is still in the map after the wait. -/
theorem C1_waiter_cleanup_witness :
    respLookup (wait_for_client_response arrivals_example 500 [] "id1").2 "id1" =
      some (ClientResp.msg "payload") :=
  (C1_waiter_cleanup arrivals_example 500 [] "id1").2.2 (ClientResp.msg "payload") rfl

/-- C2 (code evaluated at the failing input): on invalid UTF-8 with a session
opened, the source builds `ErrorResponse` with status 422 and reason
`Invalid UTF-8 bytes` but then calls `self._send_response_to_client`, a name
the class never defines, so an `AttributeError` is raised and merely logged:
no Error message reaches the client, although the connection does stay open. -/
theorem C2_invalid_utf8_after_open :
    received_invalid_utf8 true = Utf8Outcome.attribute_error_logged
    ∧ received_invalid_utf8 true ≠
        Utf8Outcome.error_message_sent 422 "Invalid UTF-8 bytes"
    ∧ utf8_outcome_connection_open (received_invalid_utf8 true) = true
    ∧ invalid_utf8_error_response.status = 422
    ∧ invalid_utf8_error_response.reason = "Invalid UTF-8 bytes"
    ∧ webSocketMethodNames.contains "_send_response_to_client" = false
    ∧ received_invalid_utf8 false =
        Utf8Outcome.disconnected 4001 "Invalid UTF-8 bytes" := by
  refine ⟨by decide, by decide, by decide, rfl, rfl, by decide, by decide⟩

/-- C3 (code evaluated at the failing input): for a batch of two messages both
carrying `reply_to_sk`, the outgoing ctx has no `reply_to_sk` key at all - the
batch branch accumulates the values under the empty-string key, unlike the
single-message branch, which does store the value under `reply_to_sk`. -/
theorem C3_batch_reply_to_sk :
    ctxLookup
        (invokeClientPubSubMetaCtx
          (deliver_pubsub_msg (DeliverInput.batch [psmsg1, psmsg2])).1)
        "reply_to_sk" = none
    ∧ ctxLookup
        (invokeClientPubSubMetaCtx
          (deliver_pubsub_msg (DeliverInput.batch [psmsg1, psmsg2])).1)
        "" = some (CtxVal.list ["sk-1", "sk-2"])
    ∧ ctxLookup
        (invokeClientPubSubMetaCtx
          (deliver_pubsub_msg (DeliverInput.single psmsg1)).1)
        "reply_to_sk" = some (CtxVal.str "sk-1")
    ∧ (deliver_pubsub_msg (DeliverInput.batch [psmsg1, psmsg2])).2 =
        ["m1", "m2pre"] := by
  refine ⟨rfl, rfl, rfl, rfl⟩

/-- C4: once a session is open, a message is dispatched only if it carries a
token equal to the current `token.value` and the current time is at most
`token.expires_at`; a missing token, a non-matching token, or an expired
token each draw a Forbidden answer, and a Forbidden answer is never a
dispatch. -/
theorem C4_token_gate (token_value : String) (expires_at : Int)
    (request_token : Option String) (is_auth : Bool) (now : Int) :
    ((received_after_session_open token_value expires_at request_token is_auth now =
        InboundOutcome.dispatch_client_message ∨
      received_after_session_open token_value expires_at request_token is_auth now =
        InboundOutcome.dispatch_create_session) →
      request_token = some token_value ∧ now ≤ expires_at)
    ∧ (request_token = none →
        received_after_session_open token_value expires_at request_token is_auth now =
          InboundOutcome.forbidden "did not send token")
    ∧ (∀ tok, request_token = some tok → tok ≠ token_value →
        ∃ r, received_after_session_open token_value expires_at request_token is_auth now =
          InboundOutcome.forbidden r)
    ∧ (now > expires_at →
        ∃ r, received_after_session_open token_value expires_at request_token is_auth now =
          InboundOutcome.forbidden r)
    ∧ (∀ r, received_after_session_open token_value expires_at request_token is_auth now =
          InboundOutcome.forbidden r →
        received_after_session_open token_value expires_at request_token is_auth now ≠
          InboundOutcome.dispatch_client_message ∧
        received_after_session_open token_value expires_at request_token is_auth now ≠
          InboundOutcome.dispatch_create_session) := by
  unfold received_after_session_open
  cases request_token with
  | none =>
    refine ⟨fun h => ?_, fun _ => rfl, fun tok htok => by simp at htok,
      fun _ => ⟨"did not send token", rfl⟩, fun r hr => by simp [hr]⟩
    rcases h with h | h <;> simp at h
  | some tok =>
    by_cases h1 : tok = ""
    · refine ⟨fun h => ?_, fun hn => by simp at hn,
        fun tok2 _ _ => ⟨"did not send token", by simp [h1]⟩,
        fun _ => ⟨"did not send token", by simp [h1]⟩, fun r _ => by simp [h1]⟩
      rcases h with h | h <;> simp [h1] at h
    · by_cases h2 : tok = token_value
      · subst h2
        by_cases h3 : now > expires_at
        · refine ⟨fun h => ?_, fun hn => by simp at hn,
            fun tok2 htok2 hne => absurd (Option.some.inj htok2).symm hne,
            fun _ => ⟨"used an expired token", by simp [h1, h3]⟩,
            fun r _ => by simp [h1, h3]⟩
          rcases h with h | h <;> simp [h1, h3] at h
        · refine ⟨fun _ => ⟨rfl, by omega⟩, fun hn => by simp at hn,
            fun tok2 htok2 hne => absurd (Option.some.inj htok2).symm hne,
            fun h3x => absurd h3x h3, fun r hr => ?_⟩
          cases is_auth <;> simp [h1, h3] at hr
      · refine ⟨fun h => ?_, fun hn => by simp at hn,
          fun tok2 _ _ => ⟨"sent an invalid token", by simp [h1, h2]⟩,
          fun _ => ⟨"sent an invalid token", by simp [h1, h2]⟩,
          fun r _ => by simp [h1, h2]⟩
        rcases h with h | h <;> simp [h1, h2] at h

/-- C4 (witness): an in-date matching token is dispatched, so its token equals
the connection token and the clock is within the expiry. -/
theorem C4_token_gate_witness :
    (some "ws.token.abc" : Option String) = some "ws.token.abc" ∧ (50 : Int) ≤ 100 :=
  (C4_token_gate "ws.token.abc" 100 (some "ws.token.abc") false 50).1 (Or.inl (by decide))

/-- C5 (counterexample): on an authenticated audit-enabled connection, calling
`disconnect_client` twice invokes the host-side client deletion twice and the
audit-container deletion twice, and the state after the second call differs
from the state after the first - the second call is not a no-op and the
deregistration is not single. -/
theorem C5_counterexample :
    (disconnect_client (disconnect_client disconnect_example_state)).client_delete_invocations = 2
    ∧ (disconnect_client (disconnect_client disconnect_example_state)).audit_delete_invocations = 2
    ∧ disconnect_client (disconnect_client disconnect_example_state) ≠
        disconnect_client disconnect_example_state := by
  refine ⟨rfl, rfl, by decide⟩

/-- C5 (amended): calling `disconnect_client` twice sends the close frame
exactly once (`close` checks `server_terminated`) and leaves the clients map
exactly as a single removal would, but the unregister cleanup and the audit
container deletion are run again by the second call: host client deletion and
audit deletion each happen twice, not once. -/
theorem C5_disconnect_twice (s : DisconnectState) (h : s.server_terminated = false) :
    ((disconnect_client s).close_frames_sent = s.close_frames_sent + 1)
    ∧ ((disconnect_client (disconnect_client s)).close_frames_sent =
        s.close_frames_sent + 1)
    ∧ ((disconnect_client (disconnect_client s)).clients =
        s.clients.filter (fun c => c ≠ s.pub_client_id))
    ∧ (s.has_session_opened = true →
        (disconnect_client (disconnect_client s)).client_delete_invocations =
          s.client_delete_invocations + 2)
    ∧ (s.is_audit_active = true →
        (disconnect_client (disconnect_client s)).audit_delete_invocations =
          s.audit_delete_invocations + 2) := by
  obtain ⟨dr, st, hso, aud, pid, cls, cdi, adi, cfs⟩ := s
  simp only at h
  subst h
  cases hso <;> cases aud <;>
    simp [disconnect_client, close_connection, unregister_auth_client, cleanup_wsx_client,
      ws_close, List.filter_filter]

/-- C5 (witness): the amended theorem evaluated on the example connection. -/
theorem C5_disconnect_twice_witness :
    (disconnect_client (disconnect_client disconnect_example_state)).close_frames_sent =
      disconnect_example_state.close_frames_sent + 1
    ∧ (disconnect_client (disconnect_client disconnect_example_state)).client_delete_invocations =
        disconnect_example_state.client_delete_invocations + 2 :=
  ⟨(C5_disconnect_twice disconnect_example_state rfl).2.1,
   (C5_disconnect_twice disconnect_example_state rfl).2.2.2.1 rfl⟩

/-- C6: in the pinger loop a missed pong increments `pings_missed` by exactly
one; when the incremented counter reaches `pings_missed_threshold` the
connection is closed with code 4002 and the loop exits, and below the
threshold the loop continues; with threshold 1 the very first miss closes. -/
theorem C6_pinger (s : PingerState) :
    ((pinger_on_miss s).1.pings_missed = s.pings_missed + 1)
    ∧ (s.pings_missed + 1 ≥ s.pings_missed_threshold →
        (pinger_on_miss s).2 = PingerAction.close_and_exit 4002 "Pings missed")
    ∧ (s.pings_missed + 1 < s.pings_missed_threshold →
        (pinger_on_miss s).2 = PingerAction.continue_loop)
    ∧ (s.pings_missed_threshold = 1 →
        (pinger_on_miss s).2 = PingerAction.close_and_exit 4002 "Pings missed") := by
  unfold pinger_on_miss
  by_cases h : s.pings_missed + 1 < s.pings_missed_threshold
  · simp [h, code_pings_missed]
    omega
  · simp [h, code_pings_missed]

/-- C6 (witness): with threshold 1 and no prior misses, the first missed pong
closes the connection with code 4002. -/
theorem C6_pinger_witness :
    (pinger_on_miss pinger_example_state).1.pings_missed =
      pinger_example_state.pings_missed + 1
    ∧ (pinger_on_miss pinger_example_state).2 =
        PingerAction.close_and_exit 4002 "Pings missed" :=
  ⟨(C6_pinger pinger_example_state).1, (C6_pinger pinger_example_state).2.2.2 rfl⟩

/-- C7 (counterexample): `extend(0)` does not add the supplied 0 seconds - the
Python expression `extend_by or self.ttl` treats 0 as falsy, so the ttl
(5 seconds) is added instead. -/
theorem C7_counterexample :
    (token_example.extend (some 0)).expires_at ≠ token_example.expires_at + 0 := by
  decide

/-- C7 (amended): `expires_at` is `creation_time + ttl` at creation; `extend`
adds `extend_by` when it is supplied and nonzero, and adds `ttl` when it is
not supplied or equals 0 (Python falsy); for non-negative ttl and extend_by,
`expires_at` never decreases across any sequence of extensions, including the
extension done by re-authentication through the token setter. -/
theorem C7_token_extension (value : String) (ttl now e : Int) (t : TokenInfo)
    (ops : List (Option Int)) (h_ttl : 0 ≤ t.ttl) (h_e : 0 ≤ e)
    (h_ops : ∀ o ∈ ops, 0 ≤ o.getD 0) :
    ((TokenInfo.create value ttl now).expires_at = now + ttl)
    ∧ ((TokenInfo.create value ttl now).creation_time = now)
    ∧ (e ≠ 0 → (TokenInfo.extend t (some e)).expires_at = t.expires_at + e)
    ∧ ((TokenInfo.extend t (some 0)).expires_at = t.expires_at + t.ttl)
    ∧ ((TokenInfo.extend t none).expires_at = t.expires_at + t.ttl)
    ∧ (t.expires_at ≤ (TokenInfo.extend t (some e)).expires_at)
    ∧ (t.expires_at ≤ (ops.foldl TokenInfo.extend t).expires_at)
    ∧ (∀ ttl2 now2 : Int,
        t.expires_at ≤ (setToken (some t) value ttl2 now2).expires_at) := by
  refine ⟨?_, rfl, ?_, ?_, ?_, ?_, ?_, ?_⟩
  · simp [TokenInfo.create, TokenInfo.extend]
  · intro hne; simp [TokenInfo.extend, hne]
  · simp [TokenInfo.extend]
  · simp [TokenInfo.extend]
  · exact TokenInfo.extend_expires_ge t (some e) h_ttl (by simpa using h_e)
  · exact TokenInfo.foldl_extend_expires_ge ops t h_ttl h_ops
  · intro ttl2 now2
    have h2 := TokenInfo.extend_expires_ge { t with value := value } none h_ttl (by simp)
    simpa [setToken] using h2

/-- C7 (witness): the amended theorem evaluated on a token of ttl 5 created at
time 0 and a concrete extension sequence. -/
theorem C7_token_extension_witness :
    token_example.expires_at ≤
      (extend_ops_example.foldl TokenInfo.extend token_example).expires_at
    ∧ (TokenInfo.create "v" 5 0).expires_at = 0 + 5 :=
  ⟨(C7_token_extension "v" 5 0 3 token_example extend_ops_example (by decide) (by decide)
      (by decide)).2.2.2.2.2.2.1,
   (C7_token_extension "v" 5 0 3 token_example extend_ops_example (by decide) (by decide)
      (by decide)).1⟩

/-- C8: every container operation that subscripts the clients dict with a
`pub_client_id` that is not a key fails with exactly the key-not-found error
for that id. -/
theorem C8_container_missing_client (c : WSXContainer) (pid : String)
    (h : containerGetRaw c.clients pid = none) :
    container_invoke_client c pid = Except.error (ContainerError.keyError pid)
    ∧ container_disconnect_client c pid = Except.error (ContainerError.keyError pid)
    ∧ container_notify_pubsub_message c pid = Except.error (ContainerError.keyError pid)
    ∧ container_subscribe_to_topic c pid = Except.error (ContainerError.keyError pid)
    ∧ container_get_client_by_pub_id c pid = Except.error (ContainerError.keyError pid) := by
  unfold container_invoke_client container_disconnect_client container_notify_pubsub_message
    container_subscribe_to_topic container_get_client_by_pub_id
  rw [h]
  exact ⟨rfl, rfl, rfl, rfl, rfl⟩

/-- C8 (witness): looking up an id absent from a concrete container. -/
theorem C8_container_missing_client_witness :
    container_get_client_by_pub_id container_example "ws.missing" =
      Except.error (ContainerError.keyError "ws.missing")
    ∧ container_invoke_client container_example "ws.missing" =
      Except.error (ContainerError.keyError "ws.missing") :=
  ⟨(C8_container_missing_client container_example "ws.missing" (by decide)).2.2.2.2,
   (C8_container_missing_client container_example "ws.missing" (by decide)).1⟩

/-- C9 (code evaluated at the failing input): a byte string (or a datetime)
passed directly to `dumps` is not transformed - the non-dict branch reads the
unbound local `value` and raises `NameError` - while the same byte string
stored at the top level of a dict is decoded, and a value nested one dict
deeper is passed through untransformed. -/
theorem C9_dumps_failing :
    dumps_preprocess (PyValue.bytes "abc") = Except.error (PyError.nameError "value")
    ∧ dumps_preprocess (PyValue.datetime "2022-01-02T03:04:05") =
        Except.error (PyError.nameError "value")
    ∧ dumps_preprocess
        (PyValue.dict [("a", PyValue.bytes "abc"), ("b", PyValue.datetime "D"),
          ("c", PyValue.objectId "5f")]) =
      Except.ok
        (PyValue.dict [("a", PyValue.str "abc"), ("b", PyValue.str "D"),
          ("c", PyValue.str "ObjectId(5f)")])
    ∧ dumps_preprocess (PyValue.dict [("a", PyValue.dict [("b", PyValue.datetime "D")])]) =
        Except.ok (PyValue.dict [("a", PyValue.dict [("b", PyValue.datetime "D")])]) := by
  exact ⟨rfl, rfl, rfl, rfl⟩

/-- C10: when the channel requires authentication and `auth_func` refuses the
credentials, `create_session` returns `None` and the session fields are
untouched - `token`, `has_session_opened`, `ext_client_id` and
`ext_client_name` keep their previous values - and `handle_create_session`
answers Forbidden with reason `sent invalid credentials`. -/
theorem C10_create_session_auth_failure (cfg : ChannelAuthConfig) (st : SessionFields)
    (req : CreateSessionRequest) (vault_token fresh_cid : String) (now : Int)
    (h_auth : cfg.needs_auth = true) :
    (create_session cfg st req false vault_token fresh_cid now = (none, st))
    ∧ ((create_session cfg st req false vault_token fresh_cid now).2.token = st.token)
    ∧ ((create_session cfg st req false vault_token fresh_cid now).2.has_session_opened =
        st.has_session_opened)
    ∧ ((create_session cfg st req false vault_token fresh_cid now).2.ext_client_id =
        st.ext_client_id)
    ∧ ((create_session cfg st req false vault_token fresh_cid now).2.ext_client_name =
        st.ext_client_name)
    ∧ (req.is_auth = true →
        handle_create_session cfg st req false vault_token fresh_cid now =
          (CreateSessionOutcome.forbidden "sent invalid credentials", st)) := by
  have hc : create_session cfg st req false vault_token fresh_cid now = (none, st) := by
    simp [create_session, h_auth]
  refine ⟨hc, by rw [hc], by rw [hc], by rw [hc], by rw [hc], ?_⟩
  intro hia
  simp [handle_create_session, hia, hc]

/-- C10 (witness): wrong credentials against an auth-requiring channel on a
fresh connection yield Forbidden and leave the fresh session fields as they
were. -/
theorem C10_create_session_auth_failure_witness :
    handle_create_session auth_cfg_example fresh_session_example
        bad_creds_request_example false "vt" "fc" 0 =
      (CreateSessionOutcome.forbidden "sent invalid credentials", fresh_session_example) :=
  (C10_create_session_auth_failure auth_cfg_example fresh_session_example
    bad_creds_request_example "vt" "fc" 0 rfl).2.2.2.2.2 rfl

end Zato
